import Mathlib

/-!
Verification of the rollout/diagnostic status-evaluation engine of the
SRE CLI tool (src/sre.py): the status evaluator and polling loop inside
`monitor_rollout_status`, and the pod health classifier inside
`diagnostic_deployment`.

Machine integers are modelled as `Int` (generation counters) and `Nat`
(replica counts); optional/nullable fields of the Kubernetes API objects
are modelled as `Option`.  A Python expression that would raise an
uncaught `TypeError` (comparing `None` with an int, joining a list that
contains `None`) is modelled as `none` / a `Crash` outcome.
-/

/-- Point-in-time status snapshot of a deployment, as read from
`deployment.status` in `monitor_rollout_status` (src/sre.py lines
372-377).  All three fields are nullable in the Kubernetes API. -/
structure WorkloadStatus where
  observed_generation : Option Int
  updated_replicas : Option Nat
  available_replicas : Option Nat
  deriving DecidableEq, Repr

/-- The parts of a Kubernetes deployment object that the rollout monitor
reads: `metadata.generation`, `spec.replicas`, and the status snapshot. -/
structure DeploymentObj where
  generation : Option Int
  spec_replicas : Option Nat
  status : WorkloadStatus
  deriving DecidableEq, Repr

/-- Verdict of the status evaluation: the rollout is either complete
(`Converged`) or still in progress (`Progressing`). -/
inductive Verdict where
  | Converged
  | Progressing
  deriving DecidableEq, Repr

/-- Status evaluation, embedded from src/sre.py lines 372-379: the three
replica counts are defaulted to 0 when `None`
(`x if x is not None else 0`), and the convergence condition is
`observed_generation >= metadata.generation and updated == spec and
available == spec`.  Comparing a `None` generation with `>=` raises a
`TypeError` in Python 3; that case is modelled as `none`. -/
def evaluate (d : DeploymentObj) : Option Verdict :=
  let spec_replicas := d.spec_replicas.getD 0
  let updated_replicas := d.status.updated_replicas.getD 0
  let available_replicas := d.status.available_replicas.getD 0
  match d.status.observed_generation, d.generation with
  | some og, some g =>
      if og ≥ g ∧ updated_replicas = spec_replicas ∧
          available_replicas = spec_replicas then
        some .Converged
      else
        some .Progressing
  | _, _ => none

/-- Terminal outcome of one run of the polling loop.  `Converged` is the
`break` at line 382, `TimedOut` the `sys.exit(1)` at line 388,
`FetchError` the `sys.exit(1)` at line 371 on an `ApiException`, and
`Crash` the uncaught `TypeError` from comparing a `None` generation. -/
inductive PollOutcome where
  | Converged
  | TimedOut
  | FetchError (detail : String)
  | Crash
  deriving DecidableEq, Repr

/-- Observable statistics of one polling-loop run: its terminal outcome,
how many fetch calls were made, how many progress lines were printed
(line 392) and how many sleeps were performed (line 393). -/
structure RunStats where
  outcome : PollOutcome
  fetches : Nat
  emissions : Nat
  sleeps : Nat
  deriving DecidableEq, Repr

/-- Polling loop of `monitor_rollout_status` (src/sre.py lines 364-393)
started at iteration index `i`, embedded with fuel for the unbounded
`while True`.  `f j` is the result of the j-th
`read_namespaced_deployment` call; `ct j` is the value of `time.time()`
at the j-th timeout check (line 385); `st` is `time.time()` recorded at
line 364 and `to` the timeout parameter.  Per iteration the order
matches the source: fetch, convergence check, timeout check, then emit
one progress line and sleep.  `none` means the fuel ran out before the
loop terminated. -/
def monitorRunFrom (f : Nat → Except String DeploymentObj)
    (ct : Nat → Int) (st tout : Int) : Nat → Nat → Option RunStats
  | 0, _ => none
  | fuel + 1, i =>
    match f i with
    | .error e => some ⟨.FetchError e, 1, 0, 0⟩
    | .ok d =>
      match evaluate d with
      | none => some ⟨.Crash, 1, 0, 0⟩
      | some .Converged => some ⟨.Converged, 1, 0, 0⟩
      | some .Progressing =>
        if ct i - st > tout then
          some ⟨.TimedOut, 1, 0, 0⟩
        else
          match monitorRunFrom f ct st tout fuel (i + 1) with
          | none => none
          | some r => some ⟨r.outcome, r.fetches + 1, r.emissions + 1, r.sleeps + 1⟩

/-- One full run of the polling loop, starting at iteration 0. -/
def monitorRun (f : Nat → Except String DeploymentObj)
    (ct : Nat → Int) (st tout : Int) (fuel : Nat) : Option RunStats :=
  monitorRunFrom f ct st tout fuel 0

/-- Deployment snapshot used in the scenario of C5, mirroring
`test_rollout_deployment_status` (src/test_sre.py lines 172-205):
desired replicas 3, generation 1, observed generation 1, and
updated/available replicas as given. -/
def depC5 (n : Nat) : DeploymentObj :=
  ⟨some 1, some 3, ⟨some 1, some n, some n⟩⟩

/-- Fetch sequence of the C5 scenario: the first two fetches see 1/3
replicas updated and available, the third sees 3/3. -/
def fetchC5 (i : Nat) : Except String DeploymentObj :=
  .ok (depC5 (if i < 2 then 1 else 3))

/-- Deployment snapshot that always evaluates to Progressing (0 of 3
replicas updated), used in concrete witnesses. -/
def depStuck : DeploymentObj :=
  ⟨some 1, some 3, ⟨some 1, some 0, some 0⟩⟩

/-- Deployment snapshot that evaluates to Converged, used in concrete
witnesses. -/
def depDone : DeploymentObj :=
  ⟨some 1, some 3, ⟨some 1, some 3, some 3⟩⟩

/-- Detail of a container waiting or terminated state: the Kubernetes
API makes the `reason` string optional (`cs.state.waiting.reason` /
`cs.state.terminated.reason` can be `None`). -/
structure ContainerStateDetail where
  reason : Option String
  deriving DecidableEq, Repr

/-- State of one container (`cs.state`): an optional waiting state and
an optional terminated state.  Python truthiness of these objects is
presence (`is not None`). -/
structure ContainerState where
  waiting : Option ContainerStateDetail
  terminated : Option ContainerStateDetail
  deriving DecidableEq, Repr

/-- One entry of `pod.status.container_statuses`. -/
structure ContainerStatus where
  ready : Bool
  state : ContainerState
  deriving DecidableEq, Repr

/-- Pod snapshot as read by `diagnostic_deployment` (src/sre.py lines
324-341): name, optional phase, and a nullable container-status
list. -/
structure PodStatus where
  name : String
  phase : Option String
  container_statuses : Option (List ContainerStatus)
  deriving DecidableEq, Repr

/-- Ready flag computed at src/sre.py line 327:
`all(cs.ready for cs in css) if css else False` — both a missing and an
empty container-status list are falsy in Python and yield `False`. -/
def podReady (css : Option (List ContainerStatus)) : Bool :=
  match css with
  | some (c :: rest) => (c :: rest).all (fun cs => cs.ready)
  | _ => false

/-- Issue-reason collection loop of src/sre.py lines 336-341: for each
container, if it has a waiting state append that state's reason (which
may be `None`), else if it has a terminated state append that state's
reason, in container order. -/
def collectIssues : List ContainerStatus → List (Option String)
  | [] => []
  | cs :: rest =>
    match cs.state.waiting with
    | some w => w.reason :: collectIssues rest
    | none =>
      match cs.state.terminated with
      | some t => t.reason :: collectIssues rest
      | none => collectIssues rest

/-- The `issue_reasons` list of src/sre.py lines 335-341; a missing
container-status list contributes nothing (the `if` guard at line 336
is falsy). -/
def containerIssues (css : Option (List ContainerStatus)) :
    List (Option String) :=
  match css with
  | some l => collectIssues l
  | none => []

/-- Health classification of a single pod. -/
inductive PodHealth where
  | Healthy
  | Issue (reasons : List (Option String))
  deriving DecidableEq, Repr

/-- Per-pod health decision of src/sre.py lines 342-346, in the source's
own phrasing: `if issue_reasons or phase != "Running" or not ready`
the pod counts as having issues, with the reason list replaced by the
literal fallback when empty; otherwise it counts as healthy. -/
def classify (p : PodStatus) : PodHealth :=
  let ready := podReady p.container_statuses
  let issue_reasons := containerIssues p.container_statuses
  if issue_reasons ≠ [] ∨ p.phase ≠ some "Running" ∨ ready = false then
    .Issue (if issue_reasons = [] then [some "Pod not running/ready"]
            else issue_reasons)
  else
    .Healthy

/-- Health rule as the spec states it (section 4.3), for comparison
with `classify`: a pod is Healthy iff phase = "Running" AND all
containers report ready AND containerIssues is empty; otherwise Issue,
with reason list containerIssues if non-empty, else the literal
fallback reason. -/
def healthRule (p : PodStatus) : PodHealth :=
  if p.phase = some "Running" ∧ podReady p.container_statuses = true ∧
      containerIssues p.container_statuses = [] then
    .Healthy
  else
    .Issue (if containerIssues p.container_statuses ≠ [] then
              containerIssues p.container_statuses
            else [some "Pod not running/ready"])

/-- One step of the counting loop of src/sre.py lines 342-346: the pod
increments `issues_count` when classified as an issue and
`healthy_count` otherwise. -/
def countStep (acc : Nat × Nat) (p : PodStatus) : Nat × Nat :=
  match classify p with
  | .Healthy => (acc.1 + 1, acc.2)
  | .Issue _ => (acc.1, acc.2 + 1)

/-- Aggregation over all pods of a deployment (src/sre.py lines
319-346): fold of the counting loop over the pod list, in input order,
starting from `healthy_count = issues_count = 0`.  Returns the pair
(healthy count, issues count). -/
def classifyAll (pods : List PodStatus) : Nat × Nat :=
  pods.foldl countStep (0, 0)

/-- CPU and memory strings of one entry of the `pod_metrics` dictionary
(src/sre.py lines 299-314). -/
structure PodMetrics where
  cpu : String
  memory : String
  deriving DecidableEq, Repr

/-- Text shown for the pod phase in the diagnostic line; Python prints
a missing phase as the literal `None`. -/
def phaseText : Option String → String
  | some s => s
  | none => "None"

/-- Text shown for the computed ready flag; Python capitalizes bools. -/
def boolText : Bool → String
  | true => "True"
  | false => "False"

/-- Sequence a list of optional strings; `none` models the `TypeError`
that `', '.join` raises as soon as the list contains `None`. -/
def seqStrings : List (Option String) → Option (List String)
  | [] => some []
  | none :: _ => none
  | some s :: rest => (seqStrings rest).map (fun l => s :: l)

/-- Text appended after `Issues:` at src/sre.py line 343: the joined
issue reasons when the list is non-empty, else the fallback literal;
`none` models the crash when a collected reason is `None`. -/
def issuesText (rs : List (Option String)) : Option String :=
  match rs with
  | [] => some "Pod not running/ready"
  | _ => (seqStrings rs).map (fun l => String.intercalate ", " l)

/-- Per-pod body of the diagnostics loop (src/sre.py lines 324-349),
with the metrics dictionary passed in as a lookup keyed by pod name:
builds the diagnostic message (metrics decorate the message only) and
returns the health classification together with the message.  The
message is `none` when building it would crash (a `None` reason inside
`', '.join`). -/
def diagnoseOne (pm : String → Option PodMetrics) (p : PodStatus) :
    PodHealth × Option String :=
  let base := "  Pod: " ++ p.name ++ " | Phase: " ++ phaseText p.phase ++
    " | Ready: " ++ boolText (podReady p.container_statuses)
  let msg :=
    match pm p.name with
    | some m => base ++ " | CPU: " ++ m.cpu ++ " | Memory: " ++ m.memory
    | none => base ++ " | CPU: N/A | Memory: N/A"
  match classify p with
  | .Healthy => (.Healthy, some msg)
  | .Issue rs =>
    (.Issue rs,
      (issuesText (containerIssues p.container_statuses)).map
        (fun t => msg ++ " | Issues: " ++ t))

/-- Container status stuck in a waiting state that carries no reason
string, used in the C9 counterexample. -/
def waitingNoReason : ContainerStatus :=
  ⟨false, ⟨some ⟨none⟩, none⟩⟩

/-- C1: for every snapshot with the replica and generation fields all
given, the status evaluation returns Converged exactly when
observedGeneration ≥ desiredGeneration, updatedReplicas =
desiredReplicas and availableReplicas = desiredReplicas hold
simultaneously, and otherwise returns Progressing — never a third
outcome. -/
theorem evaluate_converged_iff (og g : Int) (sr ur ar : Nat) :
    (evaluate ⟨some g, some sr, ⟨some og, some ur, some ar⟩⟩ =
        some .Converged ↔ og ≥ g ∧ ur = sr ∧ ar = sr) ∧
    (evaluate ⟨some g, some sr, ⟨some og, some ur, some ar⟩⟩ =
        some .Converged ∨
      evaluate ⟨some g, some sr, ⟨some og, some ur, some ar⟩⟩ =
        some .Progressing) := by
  unfold evaluate
  dsimp only
  split <;> simp_all

/-- C2 counterexample: a snapshot whose observedGeneration is missing
makes the evaluation raise (modelled as `none`) instead of returning a
verdict, because `None >= generation` is a `TypeError` in Python 3 —
the missing field is not treated as 0. -/
theorem evaluate_missing_observed_generation_errors :
    evaluate ⟨some 1, some 3, ⟨none, some 3, some 3⟩⟩ = none ∧
    ¬ ∃ v, evaluate ⟨some 1, some 3, ⟨none, some 3, some 3⟩⟩ = some v := by
  refine ⟨rfl, ?_⟩
  rintro ⟨v, h⟩
  simp [evaluate] at h

/-- C2 amended: the three replica-count fields (desired, updated,
available) are treated as 0 when missing and a verdict is still
returned, provided both generation fields are present; a missing
observedGeneration is not defaulted and the evaluation errors instead
of returning a verdict. -/
theorem evaluate_replica_defaulting (og g : Int) (sr ur ar : Option Nat)
    (g' : Option Int) (sr' ur' ar' : Option Nat) :
    evaluate ⟨some g, sr, ⟨some og, ur, ar⟩⟩ =
      some (if og ≥ g ∧ ur.getD 0 = sr.getD 0 ∧ ar.getD 0 = sr.getD 0
            then .Converged else .Progressing) ∧
    evaluate ⟨g', sr', ⟨none, ur', ar'⟩⟩ = none := by
  constructor
  · unfold evaluate
    dsimp only
    split <;> simp_all
  · rcases g' with _ | g' <;> rfl

/-- C3: when the very first fetch fails, the polling loop terminates at
once with the FetchError outcome: one fetch call, zero progress
emissions and zero sleeps, for any fuel, times and timeout. -/
theorem monitorRun_fetch_error_immediate
    (f : Nat → Except String DeploymentObj) (ct : Nat → Int)
    (st tout : Int) (fuel : Nat) (e : String) (h : f 0 = .error e) :
    monitorRun f ct st tout (fuel + 1) = some ⟨.FetchError e, 1, 0, 0⟩ := by
  unfold monitorRun monitorRunFrom
  rw [h]

/-- Witness for C3 at a concrete failing fetch. -/
theorem monitorRun_fetch_error_immediate_witness :
    monitorRun (fun _ => .error "transport failure") (fun _ => 0) 0 300 5 =
      some ⟨.FetchError "transport failure", 1, 0, 0⟩ :=
  monitorRun_fetch_error_immediate (fun _ => .error "transport failure")
    (fun _ => 0) 0 300 4 "transport failure" rfl

/-- Helper: while every fetched status up to iteration `i + k`
(exclusive) evaluates to Progressing and stays within the timeout, the
loop keeps going, and the run equals the run started `k` iterations
later with `k` added to every counter. -/
theorem monitorRunFrom_progress_skip
    (f : Nat → Except String DeploymentObj) (ct : Nat → Int)
    (st tout : Int) :
    ∀ (k fuel i : Nat),
      (∀ j, j < k → ∃ d, f (i + j) = .ok d ∧ evaluate d = some .Progressing) →
      (∀ j, j < k → ct (i + j) - st ≤ tout) →
      monitorRunFrom f ct st tout (k + fuel) i =
        (monitorRunFrom f ct st tout fuel (i + k)).map
          (fun r => ⟨r.outcome, r.fetches + k, r.emissions + k, r.sleeps + k⟩) := by
  intro k
  induction k with
  | zero =>
    intro fuel i _ _
    simp only [Nat.zero_add, Nat.add_zero]
    cases hr : monitorRunFrom f ct st tout fuel i <;> simp [hr]
  | succ k ih =>
    intro fuel i hprog htime
    obtain ⟨d, hf, hev⟩ := hprog 0 (Nat.succ_pos k)
    have ht := htime 0 (Nat.succ_pos k)
    rw [show k + 1 + fuel = (k + fuel) + 1 by omega]
    rw [show monitorRunFrom f ct st tout (k + fuel + 1) i =
        match f i with
        | .error e => some ⟨.FetchError e, 1, 0, 0⟩
        | .ok d =>
          match evaluate d with
          | none => some ⟨.Crash, 1, 0, 0⟩
          | some .Converged => some ⟨.Converged, 1, 0, 0⟩
          | some .Progressing =>
            if ct i - st > tout then
              some ⟨.TimedOut, 1, 0, 0⟩
            else
              match monitorRunFrom f ct st tout (k + fuel) (i + 1) with
              | none => none
              | some r =>
                some ⟨r.outcome, r.fetches + 1, r.emissions + 1, r.sleeps + 1⟩
        from rfl]
    rw [Nat.add_zero] at hf ht
    simp only [hf, hev]
    rw [if_neg (by omega)]
    rw [ih fuel (i + 1)
        (fun j hj => by
          have := hprog (j + 1) (by omega)
          rwa [show i + (j + 1) = i + 1 + j by omega] at this)
        (fun j hj => by
          have := htime (j + 1) (by omega)
          rwa [show i + (j + 1) = i + 1 + j by omega] at this)]
    rw [show i + 1 + k = i + (k + 1) by omega]
    cases hr : monitorRunFrom f ct st tout fuel (i + (k + 1)) <;>
      simp [hr] <;> omega

/-- C4: when every fetched status evaluates to Progressing and
iteration `k` is the first whose elapsed time strictly exceeds the
timeout, the loop terminates with TimedOut after `k + 1` fetches, `k`
progress emissions and `k` sleeps.  With timeout 0 and any positive
elapsed time at the first check this is `k = 0`: TimedOut at the first
check, with no emission and no sleep. -/
theorem monitorRun_timeout
    (f : Nat → Except String DeploymentObj) (ct : Nat → Int)
    (st tout : Int) (k fuel : Nat)
    (hprog : ∀ i, i ≤ k → ∃ d, f i = .ok d ∧ evaluate d = some .Progressing)
    (htime : ∀ i, i < k → ct i - st ≤ tout)
    (hk : ct k - st > tout) :
    monitorRun f ct st tout (k + 1 + fuel) = some ⟨.TimedOut, k + 1, k, k⟩ := by
  unfold monitorRun
  rw [show k + 1 + fuel = k + (fuel + 1) by omega]
  rw [monitorRunFrom_progress_skip f ct st tout k (fuel + 1) 0
      (fun j hj => by simpa using hprog j (by omega))
      (fun j hj => by simpa using htime j hj)]
  obtain ⟨d, hf, hev⟩ := hprog k (by omega)
  rw [show monitorRunFrom f ct st tout (fuel + 1) (0 + k) =
      match f (0 + k) with
      | .error e => some ⟨.FetchError e, 1, 0, 0⟩
      | .ok d =>
        match evaluate d with
        | none => some ⟨.Crash, 1, 0, 0⟩
        | some .Converged => some ⟨.Converged, 1, 0, 0⟩
        | some .Progressing =>
          if ct (0 + k) - st > tout then
            some ⟨.TimedOut, 1, 0, 0⟩
          else
            match monitorRunFrom f ct st tout fuel (0 + k + 1) with
            | none => none
            | some r =>
              some ⟨r.outcome, r.fetches + 1, r.emissions + 1, r.sleeps + 1⟩
      from rfl]
  rw [Nat.zero_add]
  simp only [hf, hev]
  rw [if_pos hk]
  simp [Nat.add_comm]

/-- Witness for C4: timeout 0, a status that never converges, and a
first elapsed check of 1 second produce TimedOut after one fetch with
no emissions and no sleeps. -/
theorem monitorRun_timeout_witness :
    monitorRun (fun _ => .ok depStuck) (fun _ => 1) 0 0 3 =
      some ⟨.TimedOut, 1, 0, 0⟩ :=
  monitorRun_timeout (fun _ => .ok depStuck) (fun _ => 1) 0 0 0 2
    (fun _ _ => ⟨depStuck, rfl, by decide⟩)
    (fun _ h => absurd h (by omega))
    (by decide)

/-- C5: in the scenario of `test_rollout_deployment_status` — desired
replicas 3, the first two fetches seeing 1/3 updated and available, the
third seeing 3/3, interval 0 (the clock never advances) and timeout
300 — the loop returns Converged after exactly 3 fetch calls, having
emitted exactly 2 progress observations and slept twice. -/
theorem monitorRun_c5_scenario :
    monitorRun fetchC5 (fun _ => 0) 0 300 10 =
      some ⟨.Converged, 3, 2, 2⟩ := by
  decide

/-- C10: convergence takes priority over timeout.  If the loop reaches
iteration `k` (all earlier statuses Progressing and within the
timeout) and the status fetched at iteration `k` evaluates to
Converged, the run returns Converged — even though the elapsed time at
iteration `k` already strictly exceeds the timeout — because the
convergence check precedes the timeout check. -/
theorem monitorRun_converged_priority
    (f : Nat → Except String DeploymentObj) (ct : Nat → Int)
    (st tout : Int) (k fuel : Nat)
    (hprog : ∀ i, i < k → ∃ d, f i = .ok d ∧ evaluate d = some .Progressing)
    (htime : ∀ i, i < k → ct i - st ≤ tout)
    (hc : ∃ d, f k = .ok d ∧ evaluate d = some .Converged)
    (hlate : ct k - st > tout) :
    monitorRun f ct st tout (k + 1 + fuel) = some ⟨.Converged, k + 1, k, k⟩ := by
  unfold monitorRun
  rw [show k + 1 + fuel = k + (fuel + 1) by omega]
  rw [monitorRunFrom_progress_skip f ct st tout k (fuel + 1) 0
      (fun j hj => by simpa using hprog j hj)
      (fun j hj => by simpa using htime j hj)]
  obtain ⟨d, hf, hev⟩ := hc
  rw [show monitorRunFrom f ct st tout (fuel + 1) (0 + k) =
      match f (0 + k) with
      | .error e => some ⟨.FetchError e, 1, 0, 0⟩
      | .ok d =>
        match evaluate d with
        | none => some ⟨.Crash, 1, 0, 0⟩
        | some .Converged => some ⟨.Converged, 1, 0, 0⟩
        | some .Progressing =>
          if ct (0 + k) - st > tout then
            some ⟨.TimedOut, 1, 0, 0⟩
          else
            match monitorRunFrom f ct st tout fuel (0 + k + 1) with
            | none => none
            | some r =>
              some ⟨r.outcome, r.fetches + 1, r.emissions + 1, r.sleeps + 1⟩
      from rfl]
  rw [Nat.zero_add]
  simp only [hf, hev]
  simp [Nat.add_comm]

/-- Witness for C10: the first fetch already converged while the clock
already strictly exceeds the timeout; the run still returns
Converged. -/
theorem monitorRun_converged_priority_witness :
    monitorRun (fun _ => .ok depDone) (fun _ => 100) 0 0 4 =
      some ⟨.Converged, 1, 0, 0⟩ :=
  monitorRun_converged_priority (fun _ => .ok depDone) (fun _ => 100) 0 0 0 3
    (fun _ h => absurd h (by omega))
    (fun _ h => absurd h (by omega))
    ⟨depDone, rfl, by decide⟩
    (by decide)

/-- C6: the per-pod classification agrees pointwise with the spec's
health rule — a pod is Healthy iff its phase is "Running", its
computed ready flag is true and its collected issue list is empty, and
otherwise it is an Issue whose reason list is the collected issues when
non-empty and the literal fallback reason "Pod not running/ready"
otherwise. -/
theorem classify_eq_healthRule (p : PodStatus) : classify p = healthRule p := by
  unfold classify healthRule
  rcases h : containerIssues p.container_statuses with _ | ⟨r, rs⟩ <;>
    rcases hr : podReady p.container_statuses <;>
    by_cases hp : p.phase = some "Running" <;>
    simp_all

/-- Helper for C7: folding the counting step adds the list length to
the sum of the two counters. -/
theorem countStep_foldl_sum (pods : List PodStatus) :
    ∀ acc : Nat × Nat,
      (pods.foldl countStep acc).1 + (pods.foldl countStep acc).2 =
        acc.1 + acc.2 + pods.length := by
  induction pods with
  | nil => intro acc; simp
  | cons p ps ih =>
    intro acc
    rw [List.foldl_cons, ih]
    unfold countStep
    cases classify p <;> simp <;> omega

/-- C7: classifying any finite sequence of N pods yields counts with
healthyCount + issuesCount = N — every pod is counted exactly once, as
either Healthy or Issue. -/
theorem classifyAll_counts (pods : List PodStatus) :
    (classifyAll pods).1 + (classifyAll pods).2 = pods.length := by
  unfold classifyAll
  rw [countStep_foldl_sum]
  simp

/-- C8: the health classification computed by the diagnostics loop is
identical under any two metrics maps — presence, absence or content of
a pod's metrics entry never influences whether the pod is Healthy or an
Issue, nor its reason list. -/
theorem diagnoseOne_metrics_irrelevant
    (p : PodStatus) (pm₁ pm₂ : String → Option PodMetrics) :
    (diagnoseOne pm₁ p).1 = (diagnoseOne pm₂ p).1 := by
  unfold diagnoseOne
  cases hc : classify p <;> simp [hc]

/-- C9 counterexample: a pod whose single container is in a waiting
state carrying a nil reason makes the collected issue list equal to
the one-element list holding nil — the list does contain a nil entry,
contradicting the claim that only non-nil reasons are collected. -/
theorem containerIssues_nil_entry :
    containerIssues (some [waitingNoReason]) = [none] ∧
    none ∈ containerIssues (some [waitingNoReason]) := by
  decide

/-- C9 amended: every entry of the collected issue list — nil entries
included — is the reason field of some container's waiting state, or of
its terminated state when no waiting state is present; a present state
with a nil reason thus contributes a nil entry rather than being
skipped. -/
theorem containerIssues_mem (css : List ContainerStatus) (r : Option String)
    (h : r ∈ containerIssues (some css)) :
    ∃ cs ∈ css, cs.state.waiting = some ⟨r⟩ ∨
      (cs.state.waiting = none ∧ cs.state.terminated = some ⟨r⟩) := by
  induction css with
  | nil => simp [containerIssues, collectIssues] at h
  | cons cs rest ih =>
    rcases hw : cs.state.waiting with _ | w
    · rcases ht : cs.state.terminated with _ | t
      · simp only [containerIssues, collectIssues, hw, ht] at h
        obtain ⟨cs', hmem, hor⟩ := ih h
        exact ⟨cs', List.mem_cons_of_mem cs hmem, hor⟩
      · simp only [containerIssues, collectIssues, hw, ht, List.mem_cons] at h
        rcases h with h | h
        · refine ⟨cs, List.mem_cons_self cs rest, Or.inr ⟨hw, ?_⟩⟩
          rw [ht, h]
        · obtain ⟨cs', hmem, hor⟩ := ih h
          exact ⟨cs', List.mem_cons_of_mem cs hmem, hor⟩
    · simp only [containerIssues, collectIssues, hw, List.mem_cons] at h
      rcases h with h | h
      · refine ⟨cs, List.mem_cons_self cs rest, Or.inl ?_⟩
        rw [hw, h]
      · obtain ⟨cs', hmem, hor⟩ := ih h
        exact ⟨cs', List.mem_cons_of_mem cs hmem, hor⟩

/-- Witness for the amended C9 at the concrete nil-reason container. -/
theorem containerIssues_mem_witness :
    ∃ cs ∈ [waitingNoReason], cs.state.waiting = some ⟨none⟩ ∨
      (cs.state.waiting = none ∧ cs.state.terminated = some ⟨none⟩) :=
  containerIssues_mem [waitingNoReason] none (by decide)
